import Mathlib

/-!
Shallow embedding of the graphics device binding in
`src/src/opengl/opengl_device.cpp` and the configuration helper in
`src/engine/dlib/src/test/testutil.cpp` of the repository, together with
theorems settling the specification claims about them.

Modelling conventions:
* A tripped C `assert` (debug hard stop) is modelled by `Option`: `none` is
  the fatal path, `some` the normal return.
* Calls into the native GL/GLFW layer are recorded as an explicit trace of
  `GLCall` values; the small amount of native state the claims mention
  (buffer binding points) is a `GLState` record folded over the trace.
* Machine integers are `Nat` with an explicit reduction modulo `2 ^ 32`
  (`u32`) where the C code accumulates in a `uint32_t`.
* Floating point values are never computed with, only copied; a float is
  therefore represented by its bit pattern as a `Nat`.
-/

set_option autoImplicit false
set_option linter.unusedVariables false

namespace DefoldGL

/-- Native vertex component type tags, from the `switch` in `GetTypeSize`
(opengl_device.cpp lines 342-367).  The enumeration itself lives in
`graphics_device.h`, outside the excerpt; `TYPE_OTHER code` stands for any
other value the underlying C integer may hold, which the switch sends to its
`default` branch. -/
inductive Ty where
  | TYPE_BYTE
  | TYPE_UNSIGNED_BYTE
  | TYPE_SHORT
  | TYPE_UNSIGNED_SHORT
  | TYPE_INT
  | TYPE_UNSIGNED_INT
  | TYPE_FLOAT
  | TYPE_OTHER (code : Nat)
  deriving DecidableEq, Repr

/-- opengl_device.cpp `GetTypeSize`: byte size of one component of a native
type tag.  The `default` branch executes `assert(0)`, the fatal path,
modelled as `none`. -/
def GetTypeSize : Ty → Option Nat
  | .TYPE_BYTE => some 1
  | .TYPE_UNSIGNED_BYTE => some 1
  | .TYPE_SHORT => some 2
  | .TYPE_UNSIGNED_SHORT => some 2
  | .TYPE_INT => some 4
  | .TYPE_UNSIGNED_INT => some 4
  | .TYPE_FLOAT => some 4
  | .TYPE_OTHER _ => none

/-- `uint32_t` arithmetic: reduce modulo `2 ^ 32`. -/
def u32 (n : Nat) : Nat := n % 4294967296

/-- Caller-supplied stream descriptor (`VertexElement` of the graphics
header): component count, native type tag, usage tag, usage index. -/
structure VertexElement where
  m_Size : Nat
  m_Type : Ty
  m_Usage : Nat
  m_UsageIndex : Nat
  deriving DecidableEq, Repr

/-- One stream slot of a built vertex declaration, as filled in by
`NewVertexDeclaration` (opengl_device.cpp lines 376-386). -/
structure VertexStream where
  m_Index : Nat
  m_Size : Nat
  m_Type : Ty
  m_Usage : Nat
  m_UsageIndex : Nat
  m_Offset : Nat
  deriving DecidableEq, Repr

/-- A built vertex declaration: the initialized prefix of the stream array,
the stream count, and the accumulated stride.  The C struct holds a fixed
array of which only the first `m_StreamCount` slots are initialized; the
list holds exactly those slots. -/
structure VertexDeclaration where
  m_Streams : List VertexStream
  m_StreamCount : Nat
  m_Stride : Nat
  deriving DecidableEq, Repr

/-- Modelled from the spec: capacity of the fixed stream array
`m_Streams` in the vertex declaration struct.  The header giving
`sizeof(vd->m_Streams)/sizeof(vd->m_Streams[0])` is outside the excerpt;
the claims below do not depend on the concrete value. -/
def maxStreamCount : Nat := 8

/-- The loop body of `NewVertexDeclaration` (opengl_device.cpp lines
376-386): walk the descriptors, give each stream the running stride as its
offset, and accumulate `m_Size * GetTypeSize(m_Type)` into the stride in
`uint32_t` arithmetic.  A fatal `GetTypeSize` propagates. -/
def buildStreams : List VertexElement → Nat → Nat → Option (List VertexStream × Nat)
  | [], _, stride => some ([], stride)
  | e :: rest, i, stride =>
    match GetTypeSize e.m_Type with
    | none => none
    | some ts =>
      match buildStreams rest (i + 1) (u32 (stride + u32 (e.m_Size * ts))) with
      | none => none
      | some (ss, total) =>
          some ({ m_Index := i, m_Size := e.m_Size, m_Type := e.m_Type,
                  m_Usage := e.m_Usage, m_UsageIndex := e.m_UsageIndex,
                  m_Offset := stride } :: ss, total)

/-- opengl_device.cpp `NewVertexDeclaration` (lines 369-389): asserts the
count fits the stream array, then builds the streams with stride 0 as the
initial accumulator and records the count. -/
def NewVertexDeclaration (element : List VertexElement) : Option VertexDeclaration :=
  if element.length < maxStreamCount then
    match buildStreams element 0 0 with
    | none => none
    | some (ss, stride) =>
        some { m_Streams := ss, m_StreamCount := element.length, m_Stride := stride }
  else none

/-- Component byte size as a plain `Nat`, 0 on the fatal tag; used only to
state sums in the specification theorems. -/
def typeSizeD (t : Ty) : Nat := (GetTypeSize t).getD 0

/-- Sum of component-count times component-byte-size over a descriptor
sequence: the value the spec says the stride must equal. -/
def sumSizes (element : List VertexElement) : Nat :=
  (element.map (fun e => e.m_Size * typeSizeD e.m_Type)).sum

/-- The two buffer binding points the excerpt uses.  `GL_ARRAY_BUFFER` and
`GL_ARRAY_BUFFER_ARB` are the same native token and thus the same binding
point. -/
inductive BufferTarget where
  | arrayBuffer
  | elementArrayBuffer
  deriving DecidableEq, Repr

/-- The two program targets used by the constant-upload path. -/
inductive ProgTarget where
  | vertexProgram
  | fragmentProgram
  deriving DecidableEq, Repr

/-- One call into the native GL layer, as issued by the functions the
claims are about.  Float arguments are carried as bit patterns (`Nat`):
the binding copies them without arithmetic. -/
inductive GLCall where
  | glBindBufferARB (target : BufferTarget) (buffer : Nat)
  | glBufferDataARB (target : BufferTarget) (size : Nat) (usage : Nat)
  | glBufferSubDataARB (target : BufferTarget) (offset : Nat) (size : Nat)
  | glMapBufferARB (target : BufferTarget) (access : Nat)
  | glUnmapBufferARB (target : BufferTarget)
  | glEnableVertexAttribArray (index : Nat)
  | glDisableVertexAttribArray (index : Nat)
  | glVertexAttribPointer (index : Nat) (size : Nat) (ty : Ty) (normalized : Bool)
      (stride : Nat) (offset : Nat)
  | glProgramLocalParameter4fARB (target : ProgTarget) (register : Int)
      (x y z w : Nat)
  | glDeleteFramebuffers (fbo : Nat)
  | glDeleteRenderbuffers (rbo : Nat)
  | glDeleteTextures (texture : Nat)
  deriving DecidableEq, Repr

/-- The native state the claims mention: the two global buffer binding
points (the framebuffer binding never decides a claim's conclusion and is
carried only so state-independence can be stated). -/
structure GLState where
  arrayBufferBinding : Nat
  elementArrayBufferBinding : Nat
  framebufferBinding : Nat
  deriving DecidableEq, Repr

/-- Effect of one recorded call on the tracked binding state: only
`glBindBufferARB` changes a buffer binding point; the other recorded calls
leave the tracked bindings as they are. -/
def applyCall (s : GLState) : GLCall → GLState
  | .glBindBufferARB .arrayBuffer b => { s with arrayBufferBinding := b }
  | .glBindBufferARB .elementArrayBuffer b => { s with elementArrayBufferBinding := b }
  | _ => s

/-- Fold a call trace over the tracked state. -/
def run (s : GLState) (calls : List GLCall) : GLState :=
  calls.foldl applyCall s

/-- opengl_device.cpp `SetVertexBufferData` (lines 237-246): bind the
buffer, upload, rebind 0. -/
def SetVertexBufferData (buffer size usage : Nat) : List GLCall :=
  [.glBindBufferARB .arrayBuffer buffer,
   .glBufferDataARB .arrayBuffer size usage,
   .glBindBufferARB .arrayBuffer 0]

/-- opengl_device.cpp `SetVertexBufferSubData` (lines 248-257). -/
def SetVertexBufferSubData (buffer offset size : Nat) : List GLCall :=
  [.glBindBufferARB .arrayBuffer buffer,
   .glBufferSubDataARB .arrayBuffer offset size,
   .glBindBufferARB .arrayBuffer 0]

/-- opengl_device.cpp `MapVertexBuffer` (lines 259-269); the returned
driver pointer is outside the model, the trace is what the claims use. -/
def MapVertexBuffer (buffer access : Nat) : List GLCall :=
  [.glBindBufferARB .arrayBuffer buffer,
   .glMapBufferARB .arrayBuffer access,
   .glBindBufferARB .arrayBuffer 0]

/-- opengl_device.cpp `UnmapVertexBuffer` (lines 271-280). -/
def UnmapVertexBuffer (buffer : Nat) : List GLCall :=
  [.glBindBufferARB .arrayBuffer buffer,
   .glUnmapBufferARB .arrayBuffer,
   .glBindBufferARB .arrayBuffer 0]

/-- opengl_device.cpp `SetIndexBufferData` (lines 297-306). -/
def SetIndexBufferData (buffer size usage : Nat) : List GLCall :=
  [.glBindBufferARB .elementArrayBuffer buffer,
   .glBufferDataARB .elementArrayBuffer size usage,
   .glBindBufferARB .elementArrayBuffer 0]

/-- opengl_device.cpp `SetIndexBufferSubData` (lines 308-317). -/
def SetIndexBufferSubData (buffer offset size : Nat) : List GLCall :=
  [.glBindBufferARB .elementArrayBuffer buffer,
   .glBufferSubDataARB .elementArrayBuffer offset size,
   .glBindBufferARB .elementArrayBuffer 0]

/-- opengl_device.cpp `MapIndexBuffer` (lines 319-329). -/
def MapIndexBuffer (buffer access : Nat) : List GLCall :=
  [.glBindBufferARB .elementArrayBuffer buffer,
   .glMapBufferARB .elementArrayBuffer access,
   .glBindBufferARB .elementArrayBuffer 0]

/-- opengl_device.cpp `UnmapIndexBuffer` (lines 331-340). -/
def UnmapIndexBuffer (buffer : Nat) : List GLCall :=
  [.glBindBufferARB .elementArrayBuffer buffer,
   .glUnmapBufferARB .elementArrayBuffer,
   .glBindBufferARB .elementArrayBuffer 0]

/-- opengl_device.cpp `EnableVertexDeclaration` (lines 396-424): bind the
vertex buffer, then for each of the first `m_StreamCount` stream slots
issue one enable-attribute call and one set-pointer call carrying the
stream's index, size, type, the declaration stride and the stream offset. -/
def EnableVertexDeclaration (vd : VertexDeclaration) (vertex_buffer : Nat) : List GLCall :=
  .glBindBufferARB .arrayBuffer vertex_buffer ::
  (vd.m_Streams.take vd.m_StreamCount).flatMap (fun st =>
    [.glEnableVertexAttribArray st.m_Index,
     .glVertexAttribPointer st.m_Index st.m_Size st.m_Type false vd.m_Stride st.m_Offset])

/-- opengl_device.cpp `DisableVertexDeclaration` (lines 426-442): one
disable-attribute call per raw stream index `0 .. m_StreamCount - 1`, then
both buffer binding points are rebound to 0. -/
def DisableVertexDeclaration (vd : VertexDeclaration) : List GLCall :=
  ((List.range vd.m_StreamCount).map (fun i => .glDisableVertexAttribArray i)) ++
  [.glBindBufferARB .arrayBuffer 0,
   .glBindBufferARB .elementArrayBuffer 0]

/-- The loop of `SetProgramConstantBlock` (opengl_device.cpp lines
581-585): `k` iterations remain, `i` is the loop counter and `reg` the
running flat float index (`reg += 4` per iteration); each iteration uploads
`f[0+reg] .. f[3+reg]` to register `base_register + i`. -/
def constantBlockLoop (t : ProgTarget) (f : Nat → Nat) (base_register : Int) :
    Nat → Nat → Nat → List GLCall
  | 0, _, _ => []
  | k + 1, i, reg =>
      .glProgramLocalParameter4fARB t (base_register + (i : Int))
          (f (0 + reg)) (f (1 + reg)) (f (2 + reg)) (f (3 + reg)) ::
      constantBlockLoop t f base_register k (i + 1) (reg + 4)

/-- opengl_device.cpp `SetProgramConstantBlock` (lines 572-587): asserts
`base_register >= 0` and `num_vectors >= 0`, then runs the upload loop.
The `Vector4*` data argument is the flat float array `f` (bit patterns),
component `k` of vector `i` at flat index `4 * i + k`. -/
def SetProgramConstantBlock (t : ProgTarget) (f : Nat → Nat)
    (base_register num_vectors : Int) : Option (List GLCall) :=
  if 0 ≤ base_register ∧ 0 ≤ num_vectors then
    some (constantBlockLoop t f base_register num_vectors.toNat 0 0)
  else none

/-- opengl_device.cpp `SetVertexConstantBlock` (lines 597-603): delegates
to the shared block upload with the vertex program target. -/
def SetVertexConstantBlock (f : Nat → Nat) (base_register num_vectors : Int) :
    Option (List GLCall) :=
  SetProgramConstantBlock .vertexProgram f base_register num_vectors

/-- opengl_device.cpp `SetFragmentConstantBlock` (lines 605-611). -/
def SetFragmentConstantBlock (f : Nat → Nat) (base_register num_vectors : Int) :
    Option (List GLCall) :=
  SetProgramConstantBlock .fragmentProgram f base_register num_vectors

/-- A texture object: wrapper around the native texture name
(opengl_device.cpp `Texture`). -/
structure Texture where
  m_Texture : Nat
  deriving DecidableEq, Repr

/-- A render target: owned color texture, framebuffer object id, depth
renderbuffer id (opengl_device.cpp `RenderTarget`). -/
structure RenderTarget where
  m_Texture : Texture
  m_FboId : Nat
  m_RboId : Nat
  deriving DecidableEq, Repr

/-- opengl_device.cpp `DeleteTexture` (lines 782-789): delete the native
texture object (the heap free of the wrapper is outside the trace). -/
def DeleteTexture (texture : Texture) : List GLCall :=
  [.glDeleteTextures texture.m_Texture]

/-- opengl_device.cpp `DeleteRenderTarget` (lines 654-661): delete the
framebuffer, delete the renderbuffer, then release the owned texture.  The
function never reads the tracked state — the `GLState` argument is carried
so that insensitivity to the current bindings (in particular the
framebuffer binding) is statable. -/
def DeleteRenderTarget (s : GLState) (rendertarget : RenderTarget) : List GLCall :=
  [.glDeleteFramebuffers rendertarget.m_FboId,
   .glDeleteRenderbuffers rendertarget.m_RboId] ++
  DeleteTexture rendertarget.m_Texture

/-- The global `Device` singleton's fields the claims mention
(opengl_device.cpp `gdevice`). -/
structure Device where
  m_DisplayWidth : Nat
  m_DisplayHeight : Nat
  deriving DecidableEq, Repr

/-- `CreateDeviceParams` fields read by `NewDevice`. -/
structure CreateDeviceParams where
  m_DisplayWidth : Nat
  m_DisplayHeight : Nat
  m_AppTitle : String
  m_Fullscreen : Bool
  m_PrintDeviceInfo : Bool
  deriving DecidableEq, Repr

/-- opengl_device.cpp `NewDevice` (lines 106-186).  `gdevice` is the global
device state before the call; `windowOk` is whether `glfwOpenWindow`
succeeds (external nondeterminism).  On failure the function terminates
GLFW and returns the null handle with the global device untouched; on
success it stores the requested display size in the global device and
returns a handle to it.  The result is `(handle, global device after the
call)`, the handle being `some` of the pointed-to device or `none` for 0. -/
def NewDevice (gdevice : Device) (params : CreateDeviceParams) (windowOk : Bool) :
    Option Device × Device :=
  if windowOk then
    let gdevice2 : Device :=
      { m_DisplayWidth := params.m_DisplayWidth,
        m_DisplayHeight := params.m_DisplayHeight }
    (some gdevice2, gdevice2)
  else
    (none, gdevice)

end DefoldGL

namespace DmTestUtil

/-- Modelled from the spec: `dmConfigFile::GetInt`, the external key-value
configuration store lookup (the dlib config implementation is outside the
excerpt).  Returns the stored integer for the key, or the caller-supplied
default when the store has no entry for it. -/
def GetInt (config : String → Option Int) (key : String) (default_value : Int) : Int :=
  (config key).getD default_value

/-- testutil.cpp `GetSocketsFromConfig` (lines 6-20).  Each of the three C
output pointers is modelled as an `Option Int` cell: `none` is a null
pointer, `some v` a cell currently holding `v`.  The function returns the
three cells after the call: a non-null cell is overwritten with the lookup
for its key (default `-1`), a null pointer stays null and its lookup is
skipped. -/
def GetSocketsFromConfig (config : String → Option Int)
    (socket socket_ssl socket_ssl_test : Option Int) :
    Option Int × Option Int × Option Int :=
  let socket2 := match socket with
    | none => none
    | some _ => some (GetInt config "server.socket" (-1))
  let socket_ssl2 := match socket_ssl with
    | none => none
    | some _ => some (GetInt config "server.socket_ssl" (-1))
  let socket_ssl_test2 := match socket_ssl_test with
    | none => none
    | some _ => some (GetInt config "server.socket_ssl_test" (-1))
  (socket2, socket_ssl2, socket_ssl_test2)

/-- The same body with the three guarded lookups performed in the opposite
order; used to state that the three lookups are order-independent. -/
def GetSocketsFromConfigRev (config : String → Option Int)
    (socket socket_ssl socket_ssl_test : Option Int) :
    Option Int × Option Int × Option Int :=
  let socket_ssl_test2 := match socket_ssl_test with
    | none => none
    | some _ => some (GetInt config "server.socket_ssl_test" (-1))
  let socket_ssl2 := match socket_ssl with
    | none => none
    | some _ => some (GetInt config "server.socket_ssl" (-1))
  let socket2 := match socket with
    | none => none
    | some _ => some (GetInt config "server.socket" (-1))
  (socket2, socket_ssl2, socket_ssl_test2)

end DmTestUtil

namespace DefoldGL

/-- Discriminator: is this call `glEnableVertexAttribArray`? -/
def isEnableAttrib : GLCall → Bool
  | .glEnableVertexAttribArray _ => true
  | _ => false

/-- Discriminator: is this call `glDisableVertexAttribArray`? -/
def isDisableAttrib : GLCall → Bool
  | .glDisableVertexAttribArray _ => true
  | _ => false

/-- Discriminator: is this call `glVertexAttribPointer`? -/
def isAttribPointer : GLCall → Bool
  | .glVertexAttribPointer _ _ _ _ _ _ => true
  | _ => false

/-- Concrete descriptor sequence used by the witnesses: three floats, two
shorts, four unsigned bytes. -/
def wElems : List VertexElement :=
  [{ m_Size := 3, m_Type := .TYPE_FLOAT, m_Usage := 0, m_UsageIndex := 0 },
   { m_Size := 2, m_Type := .TYPE_SHORT, m_Usage := 1, m_UsageIndex := 0 },
   { m_Size := 4, m_Type := .TYPE_UNSIGNED_BYTE, m_Usage := 2, m_UsageIndex := 1 }]

/-- The declaration `NewVertexDeclaration` builds from `wElems`:
offsets 0, 12, 16 and stride 20. -/
def wVd : VertexDeclaration :=
  { m_Streams :=
      [{ m_Index := 0, m_Size := 3, m_Type := .TYPE_FLOAT, m_Usage := 0,
         m_UsageIndex := 0, m_Offset := 0 },
       { m_Index := 1, m_Size := 2, m_Type := .TYPE_SHORT, m_Usage := 1,
         m_UsageIndex := 0, m_Offset := 12 },
       { m_Index := 2, m_Size := 4, m_Type := .TYPE_UNSIGNED_BYTE, m_Usage := 2,
         m_UsageIndex := 1, m_Offset := 16 }],
    m_StreamCount := 3,
    m_Stride := 20 }

/-- The trace of the constant-block witness: three vectors uploaded from
the identity bit-pattern array starting at base register 2. -/
def wTrC8 : List GLCall :=
  [.glProgramLocalParameter4fARB .vertexProgram 2 0 1 2 3,
   .glProgramLocalParameter4fARB .vertexProgram 3 4 5 6 7,
   .glProgramLocalParameter4fARB .vertexProgram 4 8 9 10 11]

end DefoldGL

namespace DefoldGL

theorem sumSizes_nil : sumSizes [] = 0 := rfl

theorem sumSizes_cons (e : VertexElement) (l : List VertexElement) :
    sumSizes (e :: l) = e.m_Size * typeSizeD e.m_Type + sumSizes l := by
  simp [sumSizes]

theorem buildStreams_length : ∀ (elems : List VertexElement) (i acc : Nat)
    (ss : List VertexStream) (total : Nat),
    buildStreams elems i acc = some (ss, total) → ss.length = elems.length := by
  intro elems
  induction elems with
  | nil =>
    intro i acc ss total h
    simp [buildStreams] at h
    simp [h.1]
  | cons e rest ih =>
    intro i acc ss total h
    cases hgt : GetTypeSize e.m_Type with
    | none => simp [buildStreams, hgt] at h
    | some ts =>
      cases hbs : buildStreams rest (i + 1) (u32 (acc + u32 (e.m_Size * ts))) with
      | none => simp [buildStreams, hgt, hbs] at h
      | some pr =>
        obtain ⟨ss2, total2⟩ := pr
        simp [buildStreams, hgt, hbs] at h
        obtain ⟨hss, htot⟩ := h
        subst hss
        simp [ih (i + 1) (u32 (acc + u32 (e.m_Size * ts))) ss2 total2 hbs]

theorem buildStreams_spec : ∀ (elems : List VertexElement) (i acc : Nat)
    (ss : List VertexStream) (total : Nat),
    buildStreams elems i acc = some (ss, total) →
    acc + sumSizes elems < 4294967296 →
    total = acc + sumSizes elems ∧
    ss.map (fun st => st.m_Offset) =
      (List.range elems.length).map (fun j => acc + sumSizes (elems.take j)) := by
  intro elems
  induction elems with
  | nil =>
    intro i acc ss total h hlt
    simp [buildStreams] at h
    obtain ⟨h1, h2⟩ := h
    subst h1; subst h2
    simp [sumSizes]
  | cons e rest ih =>
    intro i acc ss total h hlt
    cases hgt : GetTypeSize e.m_Type with
    | none => simp [buildStreams, hgt] at h
    | some ts =>
      have hsz : typeSizeD e.m_Type = ts := by simp [typeSizeD, hgt]
      have hrw : sumSizes (e :: rest) = e.m_Size * ts + sumSizes rest := by
        rw [sumSizes_cons, hsz]
      cases hbs : buildStreams rest (i + 1) (u32 (acc + u32 (e.m_Size * ts))) with
      | none => simp [buildStreams, hgt, hbs] at h
      | some pr =>
        obtain ⟨ss2, total2⟩ := pr
        have hu1 : u32 (e.m_Size * ts) = e.m_Size * ts := by
          have hx : e.m_Size * ts < 4294967296 := by rw [hrw] at hlt; omega
          simpa [u32] using Nat.mod_eq_of_lt hx
        have hu2 : u32 (acc + e.m_Size * ts) = acc + e.m_Size * ts := by
          have hx : acc + e.m_Size * ts < 4294967296 := by rw [hrw] at hlt; omega
          simpa [u32] using Nat.mod_eq_of_lt hx
        rw [hu1, hu2] at hbs
        have hlt2 : (acc + e.m_Size * ts) + sumSizes rest < 4294967296 := by
          rw [hrw] at hlt; omega
        obtain ⟨htot, hoff⟩ :=
          ih (i + 1) (acc + e.m_Size * ts) ss2 total2 hbs hlt2
        have hbs0 : buildStreams (e :: rest) i acc = some
            ({ m_Index := i, m_Size := e.m_Size, m_Type := e.m_Type,
               m_Usage := e.m_Usage, m_UsageIndex := e.m_UsageIndex,
               m_Offset := acc } :: ss2, total2) := by
          simp [buildStreams, hgt, hu1, hu2, hbs]
        rw [hbs0] at h
        obtain ⟨hss, htotal⟩ := Prod.mk.injEq _ _ _ _ ▸ Option.some.inj h
        constructor
        · rw [← htotal, htot, hrw]; omega
        · rw [← hss]
          simp only [List.map_cons, List.length_cons]
          rw [List.range_succ_eq_map, List.map_cons, List.map_map]
          have hhead : acc = acc + sumSizes ((e :: rest).take 0) := by
            simp [sumSizes]
          have hfun : (fun j => (acc + e.m_Size * ts) + sumSizes (rest.take j)) =
              ((fun j => acc + sumSizes ((e :: rest).take j)) ∘ Nat.succ) := by
            funext j
            show (acc + e.m_Size * ts) + sumSizes (rest.take j) =
              acc + sumSizes ((e :: rest).take (j + 1))
            rw [List.take_succ_cons, sumSizes_cons, hsz, Nat.add_assoc]
          rw [hoff, hfun, ← hhead]

theorem newVertexDeclaration_streamCount (elems : List VertexElement)
    (vd : VertexDeclaration) (h : NewVertexDeclaration elems = some vd) :
    vd.m_StreamCount = elems.length ∧ vd.m_Streams.length = elems.length := by
  unfold NewVertexDeclaration at h
  split at h
  case isTrue hc =>
    cases hbs : buildStreams elems 0 0 with
    | none => rw [hbs] at h; simp at h
    | some pr =>
      obtain ⟨ss, stride⟩ := pr
      rw [hbs] at h
      simp at h
      subst h
      exact ⟨rfl, buildStreams_length elems 0 0 ss stride hbs⟩
  case isFalse => simp at h

/-- C1: for every vertex declaration built by `NewVertexDeclaration` from
an ordered descriptor sequence (whose total component size is representable
in the `uint32_t` accumulator), the byte offset of stream `i` equals the
sum of component count times component byte size over streams `0 .. i-1`,
and the declaration's stride equals that sum over all streams. -/
theorem newVertexDeclaration_offsets_and_stride (elems : List VertexElement)
    (vd : VertexDeclaration) (h : NewVertexDeclaration elems = some vd)
    (hfit : sumSizes elems < 4294967296) :
    vd.m_Stride = sumSizes elems ∧
    vd.m_Streams.map (fun st => st.m_Offset) =
      (List.range elems.length).map (fun j => sumSizes (elems.take j)) := by
  unfold NewVertexDeclaration at h
  split at h
  case isTrue hc =>
    cases hbs : buildStreams elems 0 0 with
    | none => rw [hbs] at h; simp at h
    | some pr =>
      obtain ⟨ss, stride⟩ := pr
      rw [hbs] at h
      simp at h
      subst h
      obtain ⟨htot, hoff⟩ := buildStreams_spec elems 0 0 ss stride hbs (by omega)
      constructor
      · simpa using htot
      · simpa using hoff
  case isFalse => simp at h

/-- Witness for C1 at the concrete descriptor sequence `wElems`. -/
theorem newVertexDeclaration_offsets_and_stride_witness :
    NewVertexDeclaration wElems = some wVd ∧
    (wVd.m_Stride = sumSizes wElems ∧
     wVd.m_Streams.map (fun st => st.m_Offset) =
       (List.range wElems.length).map (fun j => sumSizes (wElems.take j))) :=
  ⟨by decide,
   newVertexDeclaration_offsets_and_stride wElems wVd (by decide) (by decide)⟩

/-- C7: `NewVertexDeclaration` is deterministic in its input — two calls on
the same descriptor sequence yield declarations with equal stream count,
equal per-stream offsets, and equal stride. -/
theorem newVertexDeclaration_deterministic (elems : List VertexElement)
    (vd1 vd2 : VertexDeclaration)
    (h1 : NewVertexDeclaration elems = some vd1)
    (h2 : NewVertexDeclaration elems = some vd2) :
    vd1.m_StreamCount = vd2.m_StreamCount ∧
    vd1.m_Streams.map (fun st => st.m_Offset) =
      vd2.m_Streams.map (fun st => st.m_Offset) ∧
    vd1.m_Stride = vd2.m_Stride := by
  have heq : vd1 = vd2 := Option.some.inj (h1.symm.trans h2)
  subst heq
  exact ⟨rfl, rfl, rfl⟩

/-- Witness for C7 at the concrete descriptor sequence `wElems`. -/
theorem newVertexDeclaration_deterministic_witness :
    wVd.m_StreamCount = wVd.m_StreamCount ∧
    wVd.m_Streams.map (fun st => st.m_Offset) =
      wVd.m_Streams.map (fun st => st.m_Offset) ∧
    wVd.m_Stride = wVd.m_Stride :=
  newVertexDeclaration_deterministic wElems wVd wVd (by decide) (by decide)

theorem countP_enable_flatMap (stride : Nat) : ∀ ss : List VertexStream,
    ((ss.flatMap (fun st =>
        [GLCall.glEnableVertexAttribArray st.m_Index,
         GLCall.glVertexAttribPointer st.m_Index st.m_Size st.m_Type false
           stride st.m_Offset])).countP isEnableAttrib = ss.length ∧
     (ss.flatMap (fun st =>
        [GLCall.glEnableVertexAttribArray st.m_Index,
         GLCall.glVertexAttribPointer st.m_Index st.m_Size st.m_Type false
           stride st.m_Offset])).countP isAttribPointer = ss.length) := by
  intro ss
  induction ss with
  | nil => simp
  | cons st rest ih =>
    obtain ⟨ih1, ih2⟩ := ih
    simp [List.countP_cons, isEnableAttrib, isAttribPointer, ih1, ih2]

theorem countP_disable_range : ∀ n : Nat,
    (((List.range n).map
        (fun i => GLCall.glDisableVertexAttribArray i)).countP isDisableAttrib = n ∧
     ((List.range n).map
        (fun i => GLCall.glDisableVertexAttribArray i)).countP isEnableAttrib = 0 ∧
     ((List.range n).map
        (fun i => GLCall.glDisableVertexAttribArray i)).countP isAttribPointer = 0) := by
  intro n
  induction n with
  | zero => simp
  | succ n ih =>
    obtain ⟨ih1, ih2, ih3⟩ := ih
    simp [List.range_succ, List.countP_append, List.countP_cons,
      isDisableAttrib, isEnableAttrib, isAttribPointer, ih1, ih2, ih3]

/-- C2: for a declaration with `n` streams, `EnableVertexDeclaration`
issues exactly `n` enable-attribute calls and `n` set-pointer calls, while
`DisableVertexDeclaration` issues exactly `n` disable-attribute calls and
no pointer-binding (set-pointer) calls. -/
theorem enable_disable_vertexDeclaration_calls (elems : List VertexElement)
    (vd : VertexDeclaration) (vertex_buffer : Nat)
    (h : NewVertexDeclaration elems = some vd) :
    (EnableVertexDeclaration vd vertex_buffer).countP isEnableAttrib
        = vd.m_StreamCount ∧
    (EnableVertexDeclaration vd vertex_buffer).countP isAttribPointer
        = vd.m_StreamCount ∧
    (DisableVertexDeclaration vd).countP isDisableAttrib = vd.m_StreamCount ∧
    (DisableVertexDeclaration vd).countP isEnableAttrib = 0 ∧
    (DisableVertexDeclaration vd).countP isAttribPointer = 0 := by
  obtain ⟨hcount, hlen⟩ := newVertexDeclaration_streamCount elems vd h
  have htake : vd.m_Streams.take vd.m_StreamCount = vd.m_Streams := by
    rw [hcount, ← hlen]
    exact List.take_length _
  obtain ⟨he, hp⟩ := countP_enable_flatMap vd.m_Stride vd.m_Streams
  obtain ⟨hd1, hd2, hd3⟩ := countP_disable_range vd.m_StreamCount
  refine ⟨?_, ?_, ?_, ?_, ?_⟩
  · unfold EnableVertexDeclaration
    rw [htake, List.countP_cons, he]
    simp [isEnableAttrib]
    omega
  · unfold EnableVertexDeclaration
    rw [htake, List.countP_cons, hp]
    simp [isAttribPointer]
    omega
  · unfold DisableVertexDeclaration
    rw [List.countP_append, hd1]
    simp [List.countP_cons, isDisableAttrib]
  · unfold DisableVertexDeclaration
    rw [List.countP_append, hd2]
    simp [List.countP_cons, isEnableAttrib]
  · unfold DisableVertexDeclaration
    rw [List.countP_append, hd3]
    simp [List.countP_cons, isAttribPointer]

/-- Witness for C2 at the concrete declaration `wVd` (3 streams) and
vertex buffer 7. -/
theorem enable_disable_vertexDeclaration_calls_witness :
    (EnableVertexDeclaration wVd 7).countP isEnableAttrib = wVd.m_StreamCount ∧
    (EnableVertexDeclaration wVd 7).countP isAttribPointer = wVd.m_StreamCount ∧
    (DisableVertexDeclaration wVd).countP isDisableAttrib = wVd.m_StreamCount ∧
    (DisableVertexDeclaration wVd).countP isEnableAttrib = 0 ∧
    (DisableVertexDeclaration wVd).countP isAttribPointer = 0 :=
  enable_disable_vertexDeclaration_calls wElems wVd 7 (by decide)

/-- C3: when the window cannot be created, `NewDevice` returns the null
handle and leaves the global device's stored display width and height
unchanged. -/
theorem newDevice_window_failure_null_and_unchanged (gdevice : Device)
    (params : CreateDeviceParams) :
    NewDevice gdevice params false = (none, gdevice) := rfl

/-- C5: `GetTypeSize` returns 1 for the byte-sized tags, 2 for the
short-sized tags, 4 for the int/float-sized tags, and takes the fatal
assertion path (no silent default) on any unrecognized tag. -/
theorem getTypeSize_fixed_sizes :
    GetTypeSize .TYPE_BYTE = some 1 ∧
    GetTypeSize .TYPE_UNSIGNED_BYTE = some 1 ∧
    GetTypeSize .TYPE_SHORT = some 2 ∧
    GetTypeSize .TYPE_UNSIGNED_SHORT = some 2 ∧
    GetTypeSize .TYPE_INT = some 4 ∧
    GetTypeSize .TYPE_UNSIGNED_INT = some 4 ∧
    GetTypeSize .TYPE_FLOAT = some 4 ∧
    (∀ code : Nat, GetTypeSize (.TYPE_OTHER code) = none) :=
  ⟨rfl, rfl, rfl, rfl, rfl, rfl, rfl, fun _ => rfl⟩

/-- C6: `DeleteRenderTarget` releases exactly three native resources — the
framebuffer, the depth renderbuffer, and the owned color texture — and its
trace does not depend on the tracked binding state (in particular not on
whether the target's framebuffer is currently bound). -/
theorem deleteRenderTarget_releases_three (s : GLState) (rt : RenderTarget) :
    DeleteRenderTarget s rt =
      [GLCall.glDeleteFramebuffers rt.m_FboId,
       GLCall.glDeleteRenderbuffers rt.m_RboId,
       GLCall.glDeleteTextures rt.m_Texture.m_Texture] ∧
    (DeleteRenderTarget s rt).length = 3 ∧
    (∀ s2 : GLState, DeleteRenderTarget s2 rt = DeleteRenderTarget s rt) :=
  ⟨rfl, rfl, fun _ => rfl⟩

/-- C10: each of the eight vertex/index buffer data operations first binds
its target buffer, and after its trace is applied the corresponding global
buffer-binding point is 0 while the other binding point is untouched. -/
theorem buffer_data_ops_restore_binding_zero (s : GLState)
    (buffer size usage offset access : Nat) :
    ((run s (SetVertexBufferData buffer size usage)).arrayBufferBinding = 0 ∧
     (run s (SetVertexBufferData buffer size usage)).elementArrayBufferBinding =
       s.elementArrayBufferBinding ∧
     (SetVertexBufferData buffer size usage).head? =
       some (.glBindBufferARB .arrayBuffer buffer)) ∧
    ((run s (SetVertexBufferSubData buffer offset size)).arrayBufferBinding = 0 ∧
     (run s (SetVertexBufferSubData buffer offset size)).elementArrayBufferBinding =
       s.elementArrayBufferBinding ∧
     (SetVertexBufferSubData buffer offset size).head? =
       some (.glBindBufferARB .arrayBuffer buffer)) ∧
    ((run s (MapVertexBuffer buffer access)).arrayBufferBinding = 0 ∧
     (run s (MapVertexBuffer buffer access)).elementArrayBufferBinding =
       s.elementArrayBufferBinding ∧
     (MapVertexBuffer buffer access).head? =
       some (.glBindBufferARB .arrayBuffer buffer)) ∧
    ((run s (UnmapVertexBuffer buffer)).arrayBufferBinding = 0 ∧
     (run s (UnmapVertexBuffer buffer)).elementArrayBufferBinding =
       s.elementArrayBufferBinding ∧
     (UnmapVertexBuffer buffer).head? =
       some (.glBindBufferARB .arrayBuffer buffer)) ∧
    ((run s (SetIndexBufferData buffer size usage)).elementArrayBufferBinding = 0 ∧
     (run s (SetIndexBufferData buffer size usage)).arrayBufferBinding =
       s.arrayBufferBinding ∧
     (SetIndexBufferData buffer size usage).head? =
       some (.glBindBufferARB .elementArrayBuffer buffer)) ∧
    ((run s (SetIndexBufferSubData buffer offset size)).elementArrayBufferBinding = 0 ∧
     (run s (SetIndexBufferSubData buffer offset size)).arrayBufferBinding =
       s.arrayBufferBinding ∧
     (SetIndexBufferSubData buffer offset size).head? =
       some (.glBindBufferARB .elementArrayBuffer buffer)) ∧
    ((run s (MapIndexBuffer buffer access)).elementArrayBufferBinding = 0 ∧
     (run s (MapIndexBuffer buffer access)).arrayBufferBinding =
       s.arrayBufferBinding ∧
     (MapIndexBuffer buffer access).head? =
       some (.glBindBufferARB .elementArrayBuffer buffer)) ∧
    ((run s (UnmapIndexBuffer buffer)).elementArrayBufferBinding = 0 ∧
     (run s (UnmapIndexBuffer buffer)).arrayBufferBinding =
       s.arrayBufferBinding ∧
     (UnmapIndexBuffer buffer).head? =
       some (.glBindBufferARB .elementArrayBuffer buffer)) := by
  and_intros <;> rfl

end DefoldGL

namespace DmTestUtil

/-- C4: with all three output pointers non-null, each of the three
configuration lookups yields the stored integer for its key when the store
has an entry and `-1` otherwise, and the result is unchanged when the three
guarded lookups are performed in the opposite order. -/
theorem getSocketsFromConfig_defaults_and_order (config : String → Option Int)
    (a b c : Int) :
    GetSocketsFromConfig config (some a) (some b) (some c) =
      (some ((config "server.socket").getD (-1)),
       some ((config "server.socket_ssl").getD (-1)),
       some ((config "server.socket_ssl_test").getD (-1))) ∧
    GetSocketsFromConfig (fun key => none) (some a) (some b) (some c) =
      (some (-1), some (-1), some (-1)) ∧
    (∀ s1 s2 s3 : Option Int,
      GetSocketsFromConfig config s1 s2 s3 =
        GetSocketsFromConfigRev config s1 s2 s3) := by
  refine ⟨rfl, rfl, fun s1 s2 s3 => ?_⟩
  cases s1 <;> cases s2 <;> cases s3 <;> rfl

/-- C9: each output cell of `GetSocketsFromConfig` is written (with its
key's lookup) exactly when its pointer is non-null, stays null otherwise,
and depends only on its own pointer — not on which of the other two
pointers are null. -/
theorem getSocketsFromConfig_null_pointer_tolerance
    (config : String → Option Int) (s1 s2 s3 : Option Int) :
    ((GetSocketsFromConfig config s1 s2 s3).1 =
      s1.map (fun prior => GetInt config "server.socket" (-1))) ∧
    ((GetSocketsFromConfig config s1 s2 s3).2.1 =
      s2.map (fun prior => GetInt config "server.socket_ssl" (-1))) ∧
    ((GetSocketsFromConfig config s1 s2 s3).2.2 =
      s3.map (fun prior => GetInt config "server.socket_ssl_test" (-1))) ∧
    (∀ t2 t3 : Option Int,
      (GetSocketsFromConfig config s1 t2 t3).1 =
        (GetSocketsFromConfig config s1 s2 s3).1) ∧
    (∀ t1 t3 : Option Int,
      (GetSocketsFromConfig config t1 s2 t3).2.1 =
        (GetSocketsFromConfig config s1 s2 s3).2.1) ∧
    (∀ t1 t2 : Option Int,
      (GetSocketsFromConfig config t1 t2 s3).2.2 =
        (GetSocketsFromConfig config s1 s2 s3).2.2) := by
  refine ⟨?_, ?_, ?_, fun t2 t3 => ?_, fun t1 t3 => ?_, fun t1 t2 => ?_⟩
  · cases s1 <;> rfl
  · cases s2 <;> rfl
  · cases s3 <;> rfl
  · cases s1 <;> rfl
  · cases s2 <;> rfl
  · cases s3 <;> rfl

end DmTestUtil

namespace DefoldGL

theorem constantBlockLoop_eq_map (t : ProgTarget) (f : Nat → Nat)
    (base_register : Int) : ∀ (k i : Nat),
    constantBlockLoop t f base_register k i (4 * i) =
      (List.range k).map (fun j =>
        GLCall.glProgramLocalParameter4fARB t (base_register + ((i + j : Nat) : Int))
          (f (4 * (i + j))) (f (4 * (i + j) + 1))
          (f (4 * (i + j) + 2)) (f (4 * (i + j) + 3))) := by
  intro k
  induction k with
  | zero => intro i; rfl
  | succ k ih =>
    intro i
    show GLCall.glProgramLocalParameter4fARB t (base_register + (i : Int))
        (f (0 + 4 * i)) (f (1 + 4 * i)) (f (2 + 4 * i)) (f (3 + 4 * i)) ::
        constantBlockLoop t f base_register k (i + 1) (4 * i + 4) = _
    have h4 : 4 * i + 4 = 4 * (i + 1) := by ring
    rw [h4, ih (i + 1), List.range_succ_eq_map, List.map_cons, List.map_map]
    have hfun : (fun j =>
        GLCall.glProgramLocalParameter4fARB t (base_register + ((i + 1 + j : Nat) : Int))
          (f (4 * (i + 1 + j))) (f (4 * (i + 1 + j) + 1))
          (f (4 * (i + 1 + j) + 2)) (f (4 * (i + 1 + j) + 3))) =
        ((fun j =>
        GLCall.glProgramLocalParameter4fARB t (base_register + ((i + j : Nat) : Int))
          (f (4 * (i + j))) (f (4 * (i + j) + 1))
          (f (4 * (i + j) + 2)) (f (4 * (i + j) + 3))) ∘ Nat.succ) := by
      funext j
      show GLCall.glProgramLocalParameter4fARB t (base_register + ((i + 1 + j : Nat) : Int))
          (f (4 * (i + 1 + j))) (f (4 * (i + 1 + j) + 1))
          (f (4 * (i + 1 + j) + 2)) (f (4 * (i + 1 + j) + 3)) =
        GLCall.glProgramLocalParameter4fARB t (base_register + ((i + (j + 1) : Nat) : Int))
          (f (4 * (i + (j + 1)))) (f (4 * (i + (j + 1)) + 1))
          (f (4 * (i + (j + 1)) + 2)) (f (4 * (i + (j + 1)) + 3))
      have hj : i + 1 + j = i + (j + 1) := by omega
      rw [hj]
    rw [hfun]
    congr 1
    have h0 : 0 + 4 * i = 4 * i := by omega
    have h1 : 1 + 4 * i = 4 * i + 1 := by omega
    have h2 : 2 + 4 * i = 4 * i + 2 := by omega
    have h3 : 3 + 4 * i = 4 * i + 3 := by omega
    rw [h0, h1, h2, h3]
    rfl

theorem constantBlockLoop_length (t : ProgTarget) (f : Nat → Nat)
    (base_register : Int) : ∀ (k i reg : Nat),
    (constantBlockLoop t f base_register k i reg).length = k := by
  intro k
  induction k with
  | zero => intro i reg; rfl
  | succ k ih => intro i reg; simp [constantBlockLoop, ih]

/-- C8: on a successful call (`base_register` and `num_vectors` pass the
non-negativity asserts), `SetProgramConstantBlock` emits exactly
`num_vectors` register uploads at the contiguous registers
`base_register .. base_register + num_vectors - 1`, the `i`-th upload
carrying the four components of the `i`-th input vector in order; the
vertex and fragment block entry points delegate to it. -/
theorem setProgramConstantBlock_contiguous_registers (t : ProgTarget)
    (f : Nat → Nat) (base_register num_vectors : Int) (tr : List GLCall)
    (h : SetProgramConstantBlock t f base_register num_vectors = some tr) :
    tr.length = num_vectors.toNat ∧
    (∀ j : Nat, j < num_vectors.toNat →
      tr[j]? = some (GLCall.glProgramLocalParameter4fARB t
        (base_register + (j : Int))
        (f (4 * j)) (f (4 * j + 1)) (f (4 * j + 2)) (f (4 * j + 3)))) ∧
    SetVertexConstantBlock f base_register num_vectors =
      SetProgramConstantBlock .vertexProgram f base_register num_vectors ∧
    SetFragmentConstantBlock f base_register num_vectors =
      SetProgramConstantBlock .fragmentProgram f base_register num_vectors := by
  unfold SetProgramConstantBlock at h
  split at h
  case isFalse => simp at h
  case isTrue hcond =>
    have htr : tr = constantBlockLoop t f base_register num_vectors.toNat 0 0 :=
      (Option.some.inj h).symm
    have hmap : constantBlockLoop t f base_register num_vectors.toNat 0 0 =
        (List.range num_vectors.toNat).map (fun j =>
          GLCall.glProgramLocalParameter4fARB t
            (base_register + ((0 + j : Nat) : Int))
            (f (4 * (0 + j))) (f (4 * (0 + j) + 1))
            (f (4 * (0 + j) + 2)) (f (4 * (0 + j) + 3))) :=
      constantBlockLoop_eq_map t f base_register num_vectors.toNat 0
    subst htr
    refine ⟨?_, ?_, rfl, rfl⟩
    · exact constantBlockLoop_length t f base_register num_vectors.toNat 0 0
    · intro j hj
      rw [hmap, List.getElem?_map, List.getElem?_range hj]
      simp

end DefoldGL

namespace DefoldGL

/-- Witness for C8: three vectors from the identity bit-pattern array,
base register 2, vertex program target. -/
theorem setProgramConstantBlock_contiguous_registers_witness :
    wTrC8.length = (3 : Int).toNat ∧
    (∀ j : Nat, j < (3 : Int).toNat →
      wTrC8[j]? = some (GLCall.glProgramLocalParameter4fARB .vertexProgram
        ((2 : Int) + (j : Int))
        (4 * j) (4 * j + 1) (4 * j + 2) (4 * j + 3))) ∧
    SetVertexConstantBlock (fun k => k) 2 3 =
      SetProgramConstantBlock .vertexProgram (fun k => k) 2 3 ∧
    SetFragmentConstantBlock (fun k => k) 2 3 =
      SetProgramConstantBlock .fragmentProgram (fun k => k) 2 3 :=
  setProgramConstantBlock_contiguous_registers .vertexProgram (fun k => k)
    2 3 wTrC8 (by decide)

end DefoldGL
